import Mathlib

/-!
Shallow embedding of the ticket lifecycle / assignment engine of the
Shakwa support-ticket platform, and proofs about the claims of its
specification.

Source files embedded:
- `app/models/ticket.py`, `app/models/ticket_assignment.py`, `app/models/user.py`
- `app/services/assignment.py`  (least-loaded auto-assignment engine)
- `app/workers/sla_monitor.py`  (SLA escalation listener)
- `app/core/redis_utils.py`     (Redis-backed SLA timer store)
- `app/crud/notification.py`    (notification sink)

Database tables are lists of records; the Redis store is a list of
key/value/TTL entries.  Python exceptions are modelled with an explicit
result type.  Timestamps (ISO strings in the source) are opaque strings.
-/

namespace Shakwa

/-- Ticket status enumeration (`app/models/ticket.py`, `TicketStatus`). -/
inductive TicketStatus where
  | QUEUED
  | ASSIGNED
  | IN_PROGRESS
  | PROCESSED
  | DONE
  | INCOMPLETE
deriving DecidableEq, Repr

/-- User role enumeration (`app/models/user.py`, `UserRole`). -/
inductive UserRole where
  | super_admin
  | admin
  | manager
  | user
deriving DecidableEq, Repr

/-- Assignment type enumeration exactly as defined in
`app/models/ticket_assignment.py` lines 9-14: the enum has only the four
members ASSIGNED, ESCALATED, REASSIGNED, COMPLETED.  It has no
AUTO_ASSIGNED and no AUTO_ESCALATED member, although
`app/services/assignment.py` line 172 and `app/workers/sla_monitor.py`
line 161 access those names. -/
inductive AssignmentType where
  | ASSIGNED
  | ESCALATED
  | REASSIGNED
  | COMPLETED
deriving DecidableEq, Repr

/-- The `.value` string of each enum member. -/
def AssignmentType.value : AssignmentType → String
  | .ASSIGNED => "assigned"
  | .ESCALATED => "escalated"
  | .REASSIGNED => "reassigned"
  | .COMPLETED => "completed"

/-- Python attribute lookup on the `AssignmentType` enum class: `some m`
when a member with that name exists, `none` for the AttributeError that
Python raises on a missing member. -/
def AssignmentType.attr : String → Option AssignmentType
  | "ASSIGNED" => some .ASSIGNED
  | "ESCALATED" => some .ESCALATED
  | "REASSIGNED" => some .REASSIGNED
  | "COMPLETED" => some .COMPLETED
  | _ => none

/-- Ticket record (`app/models/ticket.py`); only the fields read by the
assignment engine and the SLA monitor are carried. -/
structure Ticket where
  id : Nat
  tenant_id : Nat
  category_id : Option Nat
  status : TicketStatus
  title : Option String
  updated_at : String
deriving DecidableEq, Repr

/-- User record (`app/models/user.py`).  The fields `is_accepting_tickets`
and `capacity` are Modelled from the spec: the user directory entry has "a
capacity (max concurrent active tickets), and an `is_accepting_tickets`
flag" (spec section 3, section 6); these two columns are read by
`app/services/assignment.py` and written by `app/crud/user.py` but their
column definitions are absent from `app/models/user.py` in the source
tree. -/
structure User where
  id : Nat
  tenant_id : Option Nat
  manager_id : Option Nat
  category_id : Option Nat
  role : UserRole
  is_active : Bool
  is_accepting_tickets : Bool
  capacity : Nat
  first_name : String
  last_name : String
deriving DecidableEq, Repr

/-- Assignment ledger row (`app/models/ticket_assignment.py`,
`TicketAssignment`).  `assignment_type` is stored as the `.value` string,
exactly as the service layer passes it. -/
structure TicketAssignment where
  id : Nat
  ticket_id : Nat
  assigned_to_user_id : Nat
  assigned_by_user_id : Option Nat
  assignment_type : String
  is_current : Bool
  assigned_at : String
  completed_at : Option String
  notes : Option String
deriving DecidableEq, Repr

/-- Escalation audit row (`app/models/ticket_assignment.py`,
`TicketEscalation`). -/
structure TicketEscalation where
  id : Nat
  ticket_id : Nat
  escalated_from_user_id : Nat
  escalated_to_user_id : Nat
  escalation_level : Nat
  reason : Option String
  escalated_at : String
deriving DecidableEq, Repr

/-- Notification row as created by `app/crud/notification.py`
`create_notification`. -/
structure Notification where
  user_id : Nat
  title : String
  message : String
  notification_type : String
  ticket_id : Option Nat
  related_user_id : Option Nat
deriving DecidableEq, Repr

/-- Tenant configuration row (`app/models/configuration.py`): a tenant id,
a string key and a string value. -/
structure Configuration where
  tenant_id : Nat
  key : String
  value : String
deriving DecidableEq, Repr

/-- The relational database state: one list per table. -/
structure DBState where
  tickets : List Ticket
  users : List User
  assignments : List TicketAssignment
  escalations : List TicketEscalation
  notifications : List Notification
  configurations : List Configuration
deriving DecidableEq, Repr

/-- One Redis key: its string value and its remaining TTL in seconds
(`none` models a key that exists without an expiry — the defensive case
distinguished by the TTL command). -/
structure RedisEntry where
  key : String
  value : String
  ttl : Option Int
deriving DecidableEq, Repr

/-- The Redis store state: a list of entries with pairwise distinct keys
maintained by the write operations. -/
abbrev RedisState := List RedisEntry

/-- Key layout from `app/core/redis_utils.py` `get_sla_key`. -/
def get_sla_key (ticket_id : String) : String :=
  "ticket:" ++ ticket_id ++ ":sla"

/-- Redis SETEX: store `value` under `key` with TTL `ttl_seconds`,
replacing any previous entry for that key.  Redis rejects a
non-positive expire time with an error, which the caller in
`redis_utils.py` catches; the store is then unchanged.  Returns whether
the write happened together with the new state. -/
def redisSetex (rs : RedisState) (key value : String) (ttl_seconds : Int) :
    Bool × RedisState :=
  if ttl_seconds ≤ 0 then (false, rs)
  else (true, ⟨key, value, some ttl_seconds⟩ :: rs.filter (fun e => e.key ≠ key))

/-- Redis TTL: `-2` when the key does not exist, `-1` when the key exists
but has no associated expiry, otherwise the remaining seconds. -/
def redisTtl (rs : RedisState) (key : String) : Int :=
  match rs.find? (fun e => e.key == key) with
  | none => -2
  | some e =>
    match e.ttl with
    | none => -1
    | some t => t

/-- Redis DEL on one key: returns the number of keys removed (0 or 1) and
the new state. -/
def redisDel (rs : RedisState) (key : String) : Nat × RedisState :=
  let hit := rs.filter (fun e => e.key == key)
  (hit.length, rs.filter (fun e => e.key ≠ key))

/-- `start_sla_timer` (`app/core/redis_utils.py` lines 49-73): SETEX the
SLA key for the ticket with the user id as value and TTL
`minutes * 60`; returns `true` on success.  `connFail` injects the
connection failure handled by the `except` clause, which logs and
returns `false` with the store untouched. -/
def start_sla_timer (rs : RedisState) (ticket_id user_id : String)
    (minutes : Int) (connFail : Bool) : Bool × RedisState :=
  if connFail then (false, rs)
  else
    let ttl_seconds := minutes * 60
    redisSetex rs (get_sla_key ticket_id) user_id ttl_seconds

/-- `stop_sla_timer` (`app/core/redis_utils.py` lines 76-100): DEL the SLA
key; returns whether a timer was deleted, `false` on connection
failure. -/
def stop_sla_timer (rs : RedisState) (ticket_id : String) (connFail : Bool) :
    Bool × RedisState :=
  if connFail then (false, rs)
  else
    let r := redisDel rs (get_sla_key ticket_id)
    (r.1 ≠ 0, r.2)

/-- `get_sla_remaining` (`app/core/redis_utils.py` lines 103-117): return
the raw TTL of the SLA key; on a connection failure the `except` clause
returns `-1`. -/
def get_sla_remaining (rs : RedisState) (ticket_id : String)
    (connFail : Bool) : Int :=
  if connFail then -1
  else redisTtl rs (get_sla_key ticket_id)

/-- Result of a Python call: a returned value or an uncaught exception,
identified by its type name. -/
inductive PyResult (α : Type) where
  | ok : α → PyResult α
  | exn : String → PyResult α
deriving DecidableEq, Repr

/-- Python string-or-default: `s or d` is `d` when `s` is `None` or the
empty string (both falsy), otherwise `s`. -/
def pyOrStr (o : Option String) (d : String) : String :=
  match o with
  | none => d
  | some s => if s = "" then d else s

/-- Python truthiness of an optional integer: `None` and `0` are falsy. -/
def pyTruthyOptNat : Option Nat → Bool
  | none => false
  | some n => n ≠ 0

/-- `create_notification` (`app/crud/notification.py`): insert one
notification row and commit. -/
def create_notification (db : DBState) (n : Notification) : DBState :=
  { db with notifications := db.notifications ++ [n] }

/-- Default SLA minutes, `SLA_DEFAULT_MINUTES` in `app/core/config.py`. -/
def SLA_DEFAULT_MINUTES : Int := 3

/-- `get_tenant_sla_minutes` (`app/services/assignment.py` lines 95-108):
read the configuration row with key "sla" for the tenant; when it exists
and its value is truthy and parses as an integer, use it, otherwise the
system default. -/
def get_tenant_sla_minutes (db : DBState) (tenant_id : Nat) : Int :=
  match db.configurations.find? (fun c =>
      c.tenant_id == tenant_id && c.key == "sla") with
  | none => SLA_DEFAULT_MINUTES
  | some config =>
    if config.value = "" then SLA_DEFAULT_MINUTES
    else
      match config.value.toInt? with
      | some n => n
      | none => SLA_DEFAULT_MINUTES

/-- `ACTIVE_TICKET_STATUSES` (`app/services/assignment.py` lines 29-33):
ticket statuses that make a current ledger row count as load. -/
def ACTIVE_TICKET_STATUSES : List TicketStatus :=
  [.ASSIGNED, .IN_PROGRESS, .QUEUED]

/-- The per-user active-assignment count of the subquery in
`_get_candidate_users_with_load` (`app/services/assignment.py` lines
51-63): current ledger rows joined to a ticket whose status is active. -/
def active_count (db : DBState) (user_id : Nat) : Nat :=
  (db.assignments.filter (fun a =>
    a.assigned_to_user_id == user_id && a.is_current &&
    (match db.tickets.find? (fun t => t.id == a.ticket_id) with
     | some t => ACTIVE_TICKET_STATUSES.contains t.status
     | none => false))).length

/-- The eligibility filter of `_get_candidate_users_with_load`
(`app/services/assignment.py` lines 72-82): same tenant, role `user`,
accepting tickets, active account, and matching category when a category
filter is given. -/
def eligible_user (u : User) (tenant_id : Nat) (category_id : Option Nat) :
    Bool :=
  u.tenant_id == some tenant_id &&
  u.role == UserRole.user &&
  u.is_accepting_tickets &&
  u.is_active &&
  (match category_id with
   | none => true
   | some c => u.category_id == some c)

/-- Ordering of candidates by active load, ascending — the ORDER BY of
`_get_candidate_users_with_load`. -/
def loadLE (a b : User × Nat) : Prop := a.2 ≤ b.2

instance : DecidableRel loadLE :=
  fun a b => inferInstanceAs (Decidable (a.2 ≤ b.2))

instance : IsTotal (User × Nat) loadLE :=
  ⟨fun a b => Nat.le_total a.2 b.2⟩

instance : IsTrans (User × Nat) loadLE :=
  ⟨fun _ _ _ h h2 => Nat.le_trans h h2⟩

/-- `_get_candidate_users_with_load` (`app/services/assignment.py` lines
36-92): eligible users with their active count, excluding users at or
over capacity, sorted by active count ascending (a stable sort models the
SQL ORDER BY). -/
def get_candidate_users_with_load (db : DBState) (tenant_id : Nat)
    (category_id : Option Nat) : List (User × Nat) :=
  List.insertionSort loadLE
    (((db.users.filter (fun u => eligible_user u tenant_id category_id)).map
        (fun u => (u, active_count db u.id))).filter
      (fun p => p.2 < p.1.capacity))

/-- The candidate dispatch of `auto_assign_ticket` (lines 150-154): pass
the ticket category as filter only when it is truthy. -/
def auto_assign_candidates (db : DBState) (tenant_id : Nat) (ticket : Ticket) :
    List (User × Nat) :=
  if pyTruthyOptNat ticket.category_id then
    get_candidate_users_with_load db tenant_id ticket.category_id
  else
    get_candidate_users_with_load db tenant_id none

/-- `auto_assign_ticket` (`app/services/assignment.py` lines 111-206).
Control flow in source order: load the ticket by id and tenant (return
`None` when absent); resolve SLA minutes when not passed; return `None`
when the status is not QUEUED; compute candidates (category-filtered when
the ticket has a truthy category); return `None` when there are none;
otherwise take the least-loaded candidate and build the ledger row —
whose construction accesses `AssignmentType.AUTO_ASSIGNED`, a member the
enum does not define, raising AttributeError before any write.  The
remaining branch embeds the rest of the source (ledger insert, status
update, commit, notification, timer start) and is reachable only if that
attribute lookup succeeded. -/
def auto_assign_ticket (db : DBState) (rs : RedisState)
    (ticket_id tenant_id : Nat) (assigned_by_user_id : Option Nat)
    (sla_minutes_arg : Option Int) (now : String) :
    PyResult (Option TicketAssignment) × DBState × RedisState :=
  match db.tickets.find? (fun t => t.id == ticket_id && t.tenant_id == tenant_id) with
  | none => (.ok none, db, rs)
  | some ticket =>
    let sla_minutes :=
      match sla_minutes_arg with
      | some m => m
      | none => get_tenant_sla_minutes db tenant_id
    if ticket.status ≠ TicketStatus.QUEUED then (.ok none, db, rs)
    else
      match auto_assign_candidates db tenant_id ticket with
      | [] => (.ok none, db, rs)
      | best :: _ =>
        match AssignmentType.attr "AUTO_ASSIGNED" with
        | none => (.exn "AttributeError", db, rs)
        | some atype =>
          let best_user := best.1
          let db_assignment : TicketAssignment :=
            { id := db.assignments.length
              ticket_id := ticket_id
              assigned_to_user_id := best_user.id
              assigned_by_user_id := assigned_by_user_id
              assignment_type := atype.value
              is_current := true
              assigned_at := now
              completed_at := none
              notes := none }
          let tickets2 := db.tickets.map (fun t =>
            if t.id == ticket_id then
              { t with status := TicketStatus.ASSIGNED, updated_at := now }
            else t)
          let db2 := { db with
            assignments := db.assignments ++ [db_assignment]
            tickets := tickets2 }
          let notification : Notification :=
            { user_id := best_user.id
              title := "New Ticket Assigned"
              message := "You have been automatically assigned ticket - " ++
                pyOrStr ticket.title "Untitled"
              notification_type := "ticket_assigned"
              ticket_id := some ticket_id
              related_user_id := assigned_by_user_id }
          let db3 := create_notification db2 notification
          let rs2 := (start_sla_timer rs (toString ticket_id)
            (toString best_user.id) sla_minutes false).2
          (.ok (some db_assignment), db3, rs2)

/-- `ESCALATABLE_STATUSES` (`app/workers/sla_monitor.py` line 60). -/
def ESCALATABLE_STATUSES : List TicketStatus := [.ASSIGNED, .IN_PROGRESS]

/-- Ordering of escalation rows by level, descending — the ORDER BY of
the last-escalation query in `handle_sla_expiry` (lines 172-177). -/
def levelGE (a b : TicketEscalation) : Prop :=
  b.escalation_level ≤ a.escalation_level

instance : DecidableRel levelGE :=
  fun a b => inferInstanceAs (Decidable (b.escalation_level ≤ a.escalation_level))

instance : IsTotal TicketEscalation levelGE :=
  ⟨fun a b => Nat.le_total b.escalation_level a.escalation_level⟩

instance : IsTrans TicketEscalation levelGE :=
  ⟨fun _ _ _ h h2 => Nat.le_trans h2 h⟩

/-- The last-escalation query of `handle_sla_expiry` (lines 172-177):
escalation rows of the ticket ordered by level descending, first row. -/
def last_escalation (db : DBState) (ticket_id : Nat) : Option TicketEscalation :=
  (List.insertionSort levelGE
    (db.escalations.filter (fun e => e.ticket_id == ticket_id))).head?

/-- The level of a new escalation row (`app/workers/sla_monitor.py` line
178): previous level plus one, or 1 when the ticket has no prior
escalation row. -/
def new_escalation_level (db : DBState) (ticket_id : Nat) : Nat :=
  match last_escalation db ticket_id with
  | some e => e.escalation_level + 1
  | none => 1

/-- `_notify_no_manager_escalation` (`app/workers/sla_monitor.py` lines
254-286): create one "Escalation Limit Reached" notification for every
active admin or manager of the ticket tenant. -/
def notify_no_manager_escalation (db : DBState) (ticket : Ticket)
    (user : User) : DBState :=
  let admins := db.users.filter (fun u =>
    u.tenant_id == some ticket.tenant_id &&
    (u.role == UserRole.admin || u.role == UserRole.manager) &&
    u.is_active)
  let notifs := admins.map (fun admin =>
    { user_id := admin.id
      title := "Escalation Limit Reached"
      message := "Ticket " ++ pyOrStr ticket.title "Untitled" ++
        " could not be escalated further. User " ++ user.first_name ++ " " ++
        user.last_name ++ " has no manager assigned. Manual intervention required."
      notification_type := "system"
      ticket_id := some ticket.id
      related_user_id := some user.id : Notification })
  { db with notifications := db.notifications ++ notifs }

/-- Outcome tag of one `handle_sla_expiry` run, mirroring its early
returns and its broad exception handler. -/
inductive ExpiryOutcome where
  | ticketNotFound
  | notEscalatable
  | noCurrentAssignment
  | assignedUserNotFound
  | finalEscalation
  | managerNotFound
  | attrError
  | escalated : Nat → ExpiryOutcome
deriving DecidableEq, Repr

/-- `handle_sla_expiry` (`app/workers/sla_monitor.py` lines 88-251).
Control flow in source order: load the ticket (ignore when absent or not
in an escalatable status); load the current ledger row (ignore when
absent); load the assignee (abort when absent); when the assignee has no
`manager_id`, run the final-escalation notification and return; when the
manager record is dangling, abort; otherwise close the current row and
build the manager row — whose construction accesses
`AssignmentType.AUTO_ESCALATED`, a member the enum does not define; the
AttributeError is caught by the function's broad `except`, which rolls
the session back, so the state is returned unchanged.  The remaining
branch embeds the rest of the source (ledger close/open, escalation row,
status update, commit, notifications, timer restart) and is reachable
only if that attribute lookup succeeded. -/
def handle_sla_expiry (db : DBState) (rs : RedisState) (ticket_id : Nat)
    (now : String) : ExpiryOutcome × DBState × RedisState :=
  match db.tickets.find? (fun t => t.id == ticket_id) with
  | none => (.ticketNotFound, db, rs)
  | some ticket =>
    if ¬ (ESCALATABLE_STATUSES.contains ticket.status) then
      (.notEscalatable, db, rs)
    else
      match db.assignments.find? (fun a =>
          a.ticket_id == ticket_id && a.is_current) with
      | none => (.noCurrentAssignment, db, rs)
      | some current_assignment =>
        match db.users.find? (fun u =>
            u.id == current_assignment.assigned_to_user_id) with
        | none => (.assignedUserNotFound, db, rs)
        | some current_user =>
          match current_user.manager_id with
          | none =>
            (.finalEscalation,
             notify_no_manager_escalation db ticket current_user, rs)
          | some mid =>
            match db.users.find? (fun u => u.id == mid) with
            | none => (.managerNotFound, db, rs)
            | some manager =>
              match AssignmentType.attr "AUTO_ESCALATED" with
              | none => (.attrError, db, rs)
              | some atype =>
                let closed := { current_assignment with
                  is_current := false, completed_at := some now }
                let assignments2 := db.assignments.map (fun a =>
                  if a.id == current_assignment.id then closed else a)
                let new_assignment : TicketAssignment :=
                  { id := db.assignments.length
                    ticket_id := ticket_id
                    assigned_to_user_id := manager.id
                    assigned_by_user_id := none
                    assignment_type := atype.value
                    is_current := true
                    assigned_at := now
                    completed_at := none
                    notes := some ("Auto-escalated from " ++
                      current_user.first_name ++ " " ++ current_user.last_name ++
                      " (SLA breach)") }
                let new_level := new_escalation_level db ticket_id
                let escalation : TicketEscalation :=
                  { id := db.escalations.length
                    ticket_id := ticket_id
                    escalated_from_user_id := current_user.id
                    escalated_to_user_id := manager.id
                    escalation_level := new_level
                    reason := some "SLA breach: ticket not resolved within SLA window"
                    escalated_at := now }
                let tickets2 := db.tickets.map (fun t =>
                  if t.id == ticket_id then
                    { t with status := TicketStatus.ASSIGNED, updated_at := now }
                  else t)
                let db2 := { db with
                  tickets := tickets2
                  assignments := assignments2 ++ [new_assignment]
                  escalations := db.escalations ++ [escalation] }
                let notif_manager : Notification :=
                  { user_id := manager.id
                    title := "Ticket Escalated to You"
                    message := "Ticket " ++ pyOrStr ticket.title "Untitled" ++
                      " has been escalated to you due to SLA breach by " ++
                      current_user.first_name ++ " " ++ current_user.last_name ++ "."
                    notification_type := "ticket_assigned"
                    ticket_id := some ticket_id
                    related_user_id := some current_user.id }
                let notif_old : Notification :=
                  { user_id := current_user.id
                    title := "Ticket Escalated"
                    message := "Ticket " ++ pyOrStr ticket.title "Untitled" ++
                      " has been escalated to " ++ manager.first_name ++ " " ++
                      manager.last_name ++ " due to SLA breach."
                    notification_type := "ticket_assigned"
                    ticket_id := some ticket_id
                    related_user_id := some manager.id }
                let db3 := create_notification (create_notification db2 notif_manager) notif_old
                let sla_minutes := get_tenant_sla_minutes db3 ticket.tenant_id
                let rs2 := (start_sla_timer rs (toString ticket_id)
                  (toString manager.id) sla_minutes false).2
                (.escalated new_level, db3, rs2)

/-! Concrete fixtures used by the evaluation theorems and witnesses. -/

/-- An eligible agent of tenant 1: role user, active, accepting, capacity 2,
no manager. -/
def agentA : User :=
  { id := 2, tenant_id := some 1, manager_id := none, category_id := none,
    role := .user, is_active := true, is_accepting_tickets := true,
    capacity := 2, first_name := "Alia", last_name := "Agent" }

/-- A queued uncategorised ticket of tenant 1. -/
def ticketQ : Ticket :=
  { id := 10, tenant_id := 1, category_id := none, status := .QUEUED,
    title := some "Printer broken", updated_at := "t0" }

/-- Database for the auto-assignment scenario of spec section 8 scenario 1:
tenant SLA configured to 60 minutes, one eligible agent with zero load,
one queued ticket. -/
def dbAssign : DBState :=
  { tickets := [ticketQ], users := [agentA], assignments := [],
    escalations := [], notifications := [],
    configurations := [⟨1, "sla", "60"⟩] }

/-- The breaching agent for the escalation scenario: has manager 3. -/
def agentB : User :=
  { id := 2, tenant_id := some 1, manager_id := some 3, category_id := none,
    role := .user, is_active := true, is_accepting_tickets := true,
    capacity := 2, first_name := "Badr", last_name := "Agent" }

/-- The manager of agentB. -/
def managerM : User :=
  { id := 3, tenant_id := some 1, manager_id := none, category_id := none,
    role := .manager, is_active := true, is_accepting_tickets := false,
    capacity := 0, first_name := "Mona", last_name := "Boss" }

/-- An assigned ticket of tenant 1. -/
def ticketA : Ticket :=
  { id := 11, tenant_id := 1, category_id := none, status := .ASSIGNED,
    title := none, updated_at := "t0" }

/-- The current ledger row of ticketA, owned by agentB. -/
def assignB : TicketAssignment :=
  { id := 0, ticket_id := 11, assigned_to_user_id := 2,
    assigned_by_user_id := none, assignment_type := "assigned",
    is_current := true, assigned_at := "t0", completed_at := none,
    notes := none }

/-- Database for the escalation scenario of spec section 8 scenario 3:
assigned ticket, current row owned by agentB whose manager is managerM. -/
def dbEscalate : DBState :=
  { tickets := [ticketA], users := [agentB, managerM],
    assignments := [assignB], escalations := [], notifications := [],
    configurations := [] }

/-- A categorised queued ticket of tenant 1. -/
def ticketCat : Ticket :=
  { id := 12, tenant_id := 1, category_id := some 7, status := .QUEUED,
    title := none, updated_at := "t0" }

/-- An eligible agent of tenant 1 in category 7. -/
def agentC : User :=
  { id := 4, tenant_id := some 1, manager_id := none, category_id := some 7,
    role := .user, is_active := true, is_accepting_tickets := true,
    capacity := 1, first_name := "Chafik", last_name := "Agent" }

/-- Database for a categorised auto-assignment attempt. -/
def dbAssignCat : DBState :=
  { tickets := [ticketCat], users := [agentC], assignments := [],
    escalations := [], notifications := [], configurations := [] }

/-- A pre-existing timer entry for an unrelated ticket. -/
def rsOther : RedisState := [⟨"ticket:99:sla", "8", some 540⟩]

/-- Database with a queued ticket and no users at all. -/
def dbNoAgent : DBState :=
  { tickets := [ticketQ], users := [], assignments := [],
    escalations := [], notifications := [], configurations := [] }

/-- First prior escalation row of ticket 11, level 1. -/
def escRow1 : TicketEscalation :=
  { id := 0, ticket_id := 11, escalated_from_user_id := 2,
    escalated_to_user_id := 3, escalation_level := 1, reason := none,
    escalated_at := "t0" }

/-- Second prior escalation row of ticket 11, level 2. -/
def escRow2 : TicketEscalation :=
  { id := 1, ticket_id := 11, escalated_from_user_id := 3,
    escalated_to_user_id := 6, escalation_level := 2, reason := none,
    escalated_at := "t1" }

/-- Escalation row of a different ticket, level 5, which must not
influence ticket 11. -/
def escRow3 : TicketEscalation :=
  { id := 2, ticket_id := 12, escalated_from_user_id := 4,
    escalated_to_user_id := 6, escalation_level := 5, reason := none,
    escalated_at := "t1" }

/-- Database with two escalation rows for ticket 11 (levels 1 and 2) and
one for ticket 12 (level 5). -/
def dbLevels : DBState :=
  { tickets := [], users := [], assignments := [],
    escalations := [escRow1, escRow2, escRow3], notifications := [],
    configurations := [] }

/-- Agent at capacity: one active ticket, capacity 1. -/
def agentD : User :=
  { id := 5, tenant_id := some 1, manager_id := none, category_id := none,
    role := .user, is_active := true, is_accepting_tickets := true,
    capacity := 1, first_name := "Dina", last_name := "Agent" }

/-- Agent under capacity with load 1. -/
def agentE : User :=
  { id := 6, tenant_id := some 1, manager_id := none, category_id := none,
    role := .user, is_active := true, is_accepting_tickets := true,
    capacity := 2, first_name := "Emad", last_name := "Agent" }

/-- Agent with zero load. -/
def agentF : User :=
  { id := 7, tenant_id := some 1, manager_id := none, category_id := none,
    role := .user, is_active := true, is_accepting_tickets := true,
    capacity := 3, first_name := "Fida", last_name := "Agent" }

/-- An assigned ticket giving agentD their load. -/
def ticket20 : Ticket :=
  { id := 20, tenant_id := 1, category_id := none, status := .ASSIGNED,
    title := none, updated_at := "t0" }

/-- An in-progress ticket giving agentE their load. -/
def ticket21 : Ticket :=
  { id := 21, tenant_id := 1, category_id := none, status := .IN_PROGRESS,
    title := none, updated_at := "t0" }

/-- Current ledger row of ticket20, held by agentD. -/
def assignD : TicketAssignment :=
  { id := 0, ticket_id := 20, assigned_to_user_id := 5,
    assigned_by_user_id := none, assignment_type := "assigned",
    is_current := true, assigned_at := "t0", completed_at := none,
    notes := none }

/-- Current ledger row of ticket21, held by agentE. -/
def assignE : TicketAssignment :=
  { id := 1, ticket_id := 21, assigned_to_user_id := 6,
    assigned_by_user_id := none, assignment_type := "assigned",
    is_current := true, assigned_at := "t0", completed_at := none,
    notes := none }

/-- Database with agentD at capacity (excluded), agentE with load 1 and
agentF with load 0. -/
def dbLoads : DBState :=
  { tickets := [ticket20, ticket21, ticketQ],
    users := [agentD, agentE, agentF],
    assignments := [assignD, assignE],
    escalations := [], notifications := [], configurations := [] }

/-- The stuck assignee for the no-manager scenario. -/
def agentG : User :=
  { id := 8, tenant_id := some 1, manager_id := none, category_id := none,
    role := .user, is_active := true, is_accepting_tickets := true,
    capacity := 2, first_name := "Ghada", last_name := "Agent" }

/-- An active admin of tenant 1. -/
def adminH : User :=
  { id := 9, tenant_id := some 1, manager_id := none, category_id := none,
    role := .admin, is_active := true, is_accepting_tickets := false,
    capacity := 0, first_name := "Hadi", last_name := "Admin" }

/-- An inactive admin of tenant 1, who must not be notified. -/
def adminJ : User :=
  { id := 12, tenant_id := some 1, manager_id := none, category_id := none,
    role := .admin, is_active := false, is_accepting_tickets := false,
    capacity := 0, first_name := "Jad", last_name := "Admin" }

/-- An assigned ticket whose owner has no manager. -/
def ticket30 : Ticket :=
  { id := 30, tenant_id := 1, category_id := none, status := .ASSIGNED,
    title := some "VPN down", updated_at := "t0" }

/-- Current ledger row of ticket30, held by agentG. -/
def assignG : TicketAssignment :=
  { id := 0, ticket_id := 30, assigned_to_user_id := 8,
    assigned_by_user_id := none, assignment_type := "assigned",
    is_current := true, assigned_at := "t0", completed_at := none,
    notes := none }

/-- Database for the final-escalation scenario of spec section 8
scenario 4. -/
def dbNoMgr : DBState :=
  { tickets := [ticket30], users := [agentG, adminH, adminJ],
    assignments := [assignG], escalations := [], notifications := [],
    configurations := [] }

/-- The assignee whose manager reference points at an ineligible user. -/
def agentK : User :=
  { id := 5, tenant_id := some 1, manager_id := some 6, category_id := none,
    role := .user, is_active := true, is_accepting_tickets := true,
    capacity := 2, first_name := "Karim", last_name := "Agent" }

/-- The referenced manager record: role user, inactive, not accepting,
capacity 0 — ineligible by every assignment-engine criterion, but an
existing row. -/
def userL : User :=
  { id := 6, tenant_id := some 1, manager_id := none, category_id := none,
    role := .user, is_active := false, is_accepting_tickets := false,
    capacity := 0, first_name := "Lina", last_name := "Former" }

/-- An assigned ticket owned by agentK. -/
def ticket40 : Ticket :=
  { id := 40, tenant_id := 1, category_id := none, status := .ASSIGNED,
    title := none, updated_at := "t0" }

/-- Current ledger row of ticket40, held by agentK. -/
def assignK : TicketAssignment :=
  { id := 0, ticket_id := 40, assigned_to_user_id := 5,
    assigned_by_user_id := none, assignment_type := "assigned",
    is_current := true, assigned_at := "t0", completed_at := none,
    notes := none }

/-- Database where the current assignee's manager_id references an
existing but entirely ineligible user. -/
def dbIneligibleMgr : DBState :=
  { tickets := [ticket40], users := [agentK, userL],
    assignments := [assignK], escalations := [], notifications := [],
    configurations := [] }

/-! Theorems settling the claims. -/

/-- Claim C1: the claim asserts that auto_assign_ticket, on a queued
ticket with an eligible under-capacity agent, creates a current
auto-assigned ledger row, sets the ticket status to assigned and returns
the assignment.  The code instead raises AttributeError at the
`AssignmentType.AUTO_ASSIGNED` lookup (the enum defines no such member)
before any ledger or status write: on the scenario-1 fixture the call
returns the exception and the database and timer store are unchanged —
no ledger row, status still queued. -/
theorem auto_assign_attribute_error_no_write :
    auto_assign_ticket dbAssign [] 10 1 none none "t1" =
      (.exn "AttributeError", dbAssign, []) := by
  decide

/-- Claim C2: the claim asserts that an SLA expiry on an assigned ticket
whose assignee has a manager closes the current ledger row, opens an
auto-escalated row for the manager, appends an escalation audit row and
re-assigns the ticket.  The code instead raises AttributeError at the
`AssignmentType.AUTO_ESCALATED` lookup (the enum defines no such member);
the broad exception handler rolls the session back, so on the scenario-3
fixture the run ends in the attrError outcome with the database and timer
store unchanged — the old row stays current, no escalation row exists. -/
theorem handle_sla_expiry_attribute_error_rollback :
    handle_sla_expiry dbEscalate [] 11 "t1" = (.attrError, dbEscalate, []) := by
  decide

/-- Claim C3: the claim asserts that once the ledger row and the status
transition are persisted, side-effect failures are not propagated.  In
the code no invocation ever reaches that persisted state: building the
ledger row evaluates `AssignmentType.AUTO_ASSIGNED`, which the enum does
not define, so the call raises AttributeError first — shown here on a
categorised eligible fixture: the exception is returned and the database,
notifications and timer store are all unchanged.  (Moreover, only the
timer-start call of the source sits inside a try/except; the notification
call does not, so its failure would propagate once the flow became
reachable.) -/
theorem auto_assign_never_reaches_persisted_state :
    auto_assign_ticket dbAssignCat rsOther 12 1 (some 5) (some 45) "t2" =
      (.exn "AttributeError", dbAssignCat, rsOther) := by
  decide

/-- Claim C8: starting the SLA timer twice for the same ticket leaves
exactly one entry for that ticket key, holding the assignee of the later
call with TTL equal to the later call's minutes times 60, for any prior
store contents and any first call. -/
theorem start_sla_timer_twice_last_wins (rs : RedisState)
    (tid u1 u2 : String) (m1 m2 : Int) (_hne : u1 ≠ u2) (h2 : 0 < m2) :
    ((start_sla_timer (start_sla_timer rs tid u1 m1 false).2
        tid u2 m2 false).2.filter
      (fun e => e.key == get_sla_key tid)) =
      [⟨get_sla_key tid, u2, some (m2 * 60)⟩] := by
  have hpos : ¬ (m2 * 60 ≤ 0) := by
    have : (0 : Int) < m2 * 60 := by positivity
    omega
  simp only [start_sla_timer, if_neg (Bool.false_ne_true), redisSetex,
    if_neg hpos, Bool.false_eq_true, if_false]
  rw [List.filter_cons]
  simp only [beq_self_eq_true, if_pos]
  rw [List.filter_eq_nil_iff.mpr]
  intro e he
  have hmem := List.mem_filter.mp he
  simp only [decide_eq_true_eq] at hmem
  simpa using hmem.2

/-- Witness for C8 at a concrete store: two starts for ticket 10, first
for user 2 with 1 minute, then for user 3 with 2 minutes, leave the
single entry for user 3 with TTL 120. -/
theorem start_sla_timer_twice_last_wins_witness :
    (("2" : String) ≠ "3") ∧ ((0 : Int) < 2) ∧
    ((start_sla_timer (start_sla_timer rsOther "10" "2" 1 false).2
        "10" "3" 2 false).2.filter
      (fun e => e.key == get_sla_key "10")) =
      [⟨get_sla_key "10", "3", some (2 * 60)⟩] :=
  ⟨by decide, by decide,
    start_sla_timer_twice_last_wins rsOther "10" "2" "3" 1 2
      (by decide) (by decide)⟩

/-- Claim C10: get_sla_remaining passes the backing store's raw TTL
convention through: -2 when no key exists for the ticket, -1 when the
key exists without an expiry, the remaining seconds otherwise; and a
store failure also yields -1, indistinguishable from the no-expiry
answer. -/
theorem get_sla_remaining_raw_ttl (rs : RedisState) (tid : String) :
    get_sla_remaining rs tid true = -1 ∧
    (rs.find? (fun e => e.key == get_sla_key tid) = none →
      get_sla_remaining rs tid false = -2) ∧
    (∀ e, rs.find? (fun e2 => e2.key == get_sla_key tid) = some e →
      e.ttl = none → get_sla_remaining rs tid false = -1) ∧
    (∀ e t, rs.find? (fun e2 => e2.key == get_sla_key tid) = some e →
      e.ttl = some t → get_sla_remaining rs tid false = t) := by
  refine ⟨rfl, ?_, ?_, ?_⟩
  · intro h
    simp [get_sla_remaining, redisTtl, h]
  · intro e h ht
    simp [get_sla_remaining, redisTtl, h, ht]
  · intro e t h ht
    simp [get_sla_remaining, redisTtl, h, ht]

/-- Witness for C10 on a concrete store holding a key with a TTL, a key
without an expiry, and no key for ticket 5: the three return values and
the failure value evaluate as the theorem states. -/
theorem get_sla_remaining_raw_ttl_witness :
    get_sla_remaining [⟨"ticket:1:sla", "2", some 60⟩,
        ⟨"ticket:2:sla", "3", none⟩] "1" true = -1 ∧
    get_sla_remaining [⟨"ticket:1:sla", "2", some 60⟩,
        ⟨"ticket:2:sla", "3", none⟩] "5" false = -2 ∧
    get_sla_remaining [⟨"ticket:1:sla", "2", some 60⟩,
        ⟨"ticket:2:sla", "3", none⟩] "2" false = -1 ∧
    get_sla_remaining [⟨"ticket:1:sla", "2", some 60⟩,
        ⟨"ticket:2:sla", "3", none⟩] "1" false = 60 := by
  refine ⟨(get_sla_remaining_raw_ttl [⟨"ticket:1:sla", "2", some 60⟩,
      ⟨"ticket:2:sla", "3", none⟩] "1").1, ?_, ?_, ?_⟩
  · exact (get_sla_remaining_raw_ttl [⟨"ticket:1:sla", "2", some 60⟩,
      ⟨"ticket:2:sla", "3", none⟩] "5").2.1 (by decide)
  · exact (get_sla_remaining_raw_ttl [⟨"ticket:1:sla", "2", some 60⟩,
      ⟨"ticket:2:sla", "3", none⟩] "2").2.2.1 ⟨"ticket:2:sla", "3", none⟩
      (by decide) rfl
  · exact (get_sla_remaining_raw_ttl [⟨"ticket:1:sla", "2", some 60⟩,
      ⟨"ticket:2:sla", "3", none⟩] "1").2.2.2 ⟨"ticket:1:sla", "2", some 60⟩
      60 (by decide) rfl

/-- Claim C5: auto_assign_ticket is a pure no-op returning None whenever
the ticket is not found in the tenant, or its status is not QUEUED, or no
eligible under-capacity candidate exists: the database and the timer
store are returned unchanged, and no notification is created. -/
theorem auto_assign_noop_paths (db : DBState) (rs : RedisState)
    (ticket_id tenant_id : Nat) (aby : Option Nat) (slaArg : Option Int)
    (now : String)
    (h : db.tickets.find? (fun t => t.id == ticket_id && t.tenant_id == tenant_id) = none
      ∨ (∃ t, db.tickets.find? (fun t2 => t2.id == ticket_id && t2.tenant_id == tenant_id) = some t
          ∧ (t.status ≠ TicketStatus.QUEUED
             ∨ auto_assign_candidates db tenant_id t = []))) :
    auto_assign_ticket db rs ticket_id tenant_id aby slaArg now =
      (.ok none, db, rs) := by
  rcases h with h | ⟨t, hfind, hcase⟩
  · unfold auto_assign_ticket
    rw [h]
  · unfold auto_assign_ticket
    rw [hfind]
    rcases hcase with hstat | hcand
    · simp [hstat]
    · by_cases hq : t.status = TicketStatus.QUEUED
      · simp [hq, hcand]
      · simp [hq]

/-- Witness for C5 on three concrete inputs: an unknown ticket id, a
ticket that is already assigned, and a queued ticket with no eligible
agent — each call returns None and leaves all state untouched. -/
theorem auto_assign_noop_paths_witness :
    (dbAssign.tickets.find? (fun t => t.id == 99 && t.tenant_id == 1) = none
      ∧ auto_assign_ticket dbAssign rsOther 99 1 none none "t9" =
        (.ok none, dbAssign, rsOther)) ∧
    (dbEscalate.tickets.find? (fun t => t.id == 11 && t.tenant_id == 1) = some ticketA
      ∧ ticketA.status ≠ TicketStatus.QUEUED
      ∧ auto_assign_ticket dbEscalate [] 11 1 none none "t9" =
        (.ok none, dbEscalate, [])) ∧
    (dbNoAgent.tickets.find? (fun t => t.id == 10 && t.tenant_id == 1) = some ticketQ
      ∧ auto_assign_candidates dbNoAgent 1 ticketQ = []
      ∧ auto_assign_ticket dbNoAgent [] 10 1 none none "t9" =
        (.ok none, dbNoAgent, [])) :=
  ⟨⟨by decide,
    auto_assign_noop_paths dbAssign rsOther 99 1 none none "t9" (Or.inl (by decide))⟩,
   ⟨by decide, by decide,
    auto_assign_noop_paths dbEscalate [] 11 1 none none "t9"
      (Or.inr ⟨ticketA, by decide, Or.inl (by decide)⟩)⟩,
   ⟨by decide, by decide,
    auto_assign_noop_paths dbNoAgent [] 10 1 none none "t9"
      (Or.inr ⟨ticketQ, by decide, Or.inr (by decide)⟩)⟩⟩

/-- Claim C6: the level written for a new escalation row is computed from
the ticket's prior escalation rows as (maximum prior level) + 1, and 1
when the ticket has none, so each new row's level strictly exceeds every
prior level by exactly one step. -/
theorem new_escalation_level_max_prior_plus_one (db : DBState)
    (ticket_id : Nat) :
    (db.escalations.filter (fun e => e.ticket_id == ticket_id) = [] →
      new_escalation_level db ticket_id = 1) ∧
    (∀ e ∈ db.escalations.filter (fun e2 => e2.ticket_id == ticket_id),
      e.escalation_level < new_escalation_level db ticket_id) ∧
    (∀ m ∈ db.escalations.filter (fun e2 => e2.ticket_id == ticket_id),
      (∀ e ∈ db.escalations.filter (fun e2 => e2.ticket_id == ticket_id),
        e.escalation_level ≤ m.escalation_level) →
      new_escalation_level db ticket_id = m.escalation_level + 1) := by
  have hperm := List.perm_insertionSort levelGE
    (db.escalations.filter (fun e => e.ticket_id == ticket_id))
  have hsorted := List.sorted_insertionSort levelGE
    (db.escalations.filter (fun e => e.ticket_id == ticket_id))
  refine ⟨?_, ?_, ?_⟩
  · intro h
    unfold new_escalation_level last_escalation
    rw [h]
    rfl
  · intro e he
    rcases hs : List.insertionSort levelGE
        (db.escalations.filter (fun e2 => e2.ticket_id == ticket_id)) with
      _ | ⟨b, rest⟩
    · rw [hs] at hperm
      rw [hperm.symm.eq_nil] at he
      exact absurd he (List.not_mem_nil e)
    · have hnew : new_escalation_level db ticket_id = b.escalation_level + 1 := by
        unfold new_escalation_level last_escalation
        rw [hs]
        rfl
      rw [hnew]
      have hmem : e ∈ b :: rest := by
        rw [← hs]
        exact (List.mem_insertionSort levelGE).mpr he
      rcases List.mem_cons.mp hmem with rfl | htail
      · exact Nat.lt_succ_self _
      · rw [hs] at hsorted
        exact Nat.lt_succ_of_le (List.rel_of_sorted_cons hsorted e htail)
  · intro m hm hmax
    rcases hs : List.insertionSort levelGE
        (db.escalations.filter (fun e2 => e2.ticket_id == ticket_id)) with
      _ | ⟨b, rest⟩
    · rw [hs] at hperm
      rw [hperm.symm.eq_nil] at hm
      exact absurd hm (List.not_mem_nil m)
    · have hnew : new_escalation_level db ticket_id = b.escalation_level + 1 := by
        unfold new_escalation_level last_escalation
        rw [hs]
        rfl
      have hbmem : b ∈ db.escalations.filter (fun e2 => e2.ticket_id == ticket_id) := by
        rw [hs] at hperm
        exact hperm.mem_iff.mp (List.mem_cons_self b rest)
      have hble : b.escalation_level ≤ m.escalation_level := hmax b hbmem
      have hmle : m.escalation_level ≤ b.escalation_level := by
        have hmem : m ∈ b :: rest := by
          rw [← hs]
          exact (List.mem_insertionSort levelGE).mpr hm
        rcases List.mem_cons.mp hmem with rfl | htail
        · exact Nat.le_refl _
        · rw [hs] at hsorted
          exact List.rel_of_sorted_cons hsorted m htail
      rw [hnew, Nat.le_antisymm hble hmle]

/-- Witness for C6: for ticket 11 the maximal prior row has level 2 and
the next level computes to 3, unaffected by the level-5 row of the other
ticket. -/
theorem new_escalation_level_witness :
    escRow2 ∈ dbLevels.escalations.filter (fun e2 => e2.ticket_id == 11) ∧
    (∀ e ∈ dbLevels.escalations.filter (fun e2 => e2.ticket_id == 11),
      e.escalation_level ≤ escRow2.escalation_level) ∧
    new_escalation_level dbLevels 11 = escRow2.escalation_level + 1 :=
  ⟨by decide, by decide,
    (new_escalation_level_max_prior_plus_one dbLevels 11).2.2 escRow2
      (by decide) (by decide)⟩

/-- Claim C4: every candidate returned by the load query is an eligible
agent whose reported load is their true active count and is strictly
below their capacity; every eligible under-capacity agent is among the
candidates; and the first candidate — the one auto_assign_ticket picks —
carries a load less than or equal to that of every candidate. -/
theorem candidates_under_capacity_least_loaded (db : DBState)
    (tenant_id : Nat) (category_id : Option Nat) :
    (∀ p ∈ get_candidate_users_with_load db tenant_id category_id,
      eligible_user p.1 tenant_id category_id = true ∧
      p.2 = active_count db p.1.id ∧
      p.2 < p.1.capacity) ∧
    (∀ u ∈ db.users, eligible_user u tenant_id category_id = true →
      active_count db u.id < u.capacity →
      (u, active_count db u.id) ∈
        get_candidate_users_with_load db tenant_id category_id) ∧
    (∀ best rest,
      get_candidate_users_with_load db tenant_id category_id = best :: rest →
      ∀ q ∈ get_candidate_users_with_load db tenant_id category_id,
        best.2 ≤ q.2) := by
  refine ⟨?_, ?_, ?_⟩
  · intro p hp
    unfold get_candidate_users_with_load at hp
    have hp2 := (List.mem_insertionSort loadLE).mp hp
    obtain ⟨hmap, hcap⟩ := List.mem_filter.mp hp2
    obtain ⟨u, hu, rfl⟩ := List.mem_map.mp hmap
    obtain ⟨_, helig⟩ := List.mem_filter.mp hu
    exact ⟨helig, rfl, by simpa using hcap⟩
  · intro u hu helig hcap
    unfold get_candidate_users_with_load
    refine (List.mem_insertionSort loadLE).mpr (List.mem_filter.mpr ⟨?_, ?_⟩)
    · exact List.mem_map.mpr ⟨u, List.mem_filter.mpr ⟨hu, helig⟩, rfl⟩
    · simpa using hcap
  · intro best rest heq q hq
    rw [heq] at hq
    unfold get_candidate_users_with_load at heq
    have hsorted := List.sorted_insertionSort loadLE
      (((db.users.filter (fun u => eligible_user u tenant_id category_id)).map
          (fun u => (u, active_count db u.id))).filter
        (fun p => p.2 < p.1.capacity))
    rw [heq] at hsorted
    rcases List.mem_cons.mp hq with rfl | htail
    · exact Nat.le_refl _
    · exact List.rel_of_sorted_cons hsorted q htail

/-- Witness for C4: on the three-agent fixture the candidate list
evaluates to agentF (load 0) before agentE (load 1) with agentD filtered
out, and the theorem's three parts apply at those concrete values. -/
theorem candidates_under_capacity_least_loaded_witness :
    ((agentF, 0) ∈ get_candidate_users_with_load dbLoads 1 none ∧
      eligible_user agentF 1 none = true ∧ (0 : Nat) < agentF.capacity) ∧
    (agentE ∈ dbLoads.users ∧ eligible_user agentE 1 none = true ∧
      active_count dbLoads agentE.id < agentE.capacity ∧
      (agentE, active_count dbLoads agentE.id) ∈
        get_candidate_users_with_load dbLoads 1 none) ∧
    (get_candidate_users_with_load dbLoads 1 none =
        (agentF, 0) :: [(agentE, 1)] ∧
      ((agentF, 0) : User × Nat).2 ≤ ((agentE, 1) : User × Nat).2) := by
  have T := candidates_under_capacity_least_loaded dbLoads 1 none
  refine ⟨⟨by decide, (T.1 (agentF, 0) (by decide)).1,
      (T.1 (agentF, 0) (by decide)).2.2⟩,
    ⟨by decide, by decide, by decide,
      T.2.1 agentE (by decide) (by decide) (by decide)⟩,
    ⟨by decide, T.2.2 (agentF, 0) [(agentE, 1)] (by decide)
      (agentE, 1) (by decide)⟩⟩

/-- The AssignmentType enum resolves no AUTO_ESCALATED member. -/
theorem attr_auto_escalated_none :
    AssignmentType.attr "AUTO_ESCALATED" = none := by decide

/-- Claim C7: on an SLA expiry whose current assignee has no manager, the
run takes the final-escalation branch: the timer store, the ticket table,
the ledger and the escalation table are all unchanged, and every active
admin or manager of the ticket tenant receives an "Escalation Limit
Reached" system notification referencing the ticket and the stuck
assignee. -/
theorem final_escalation_no_mutation (db : DBState) (rs : RedisState)
    (ticket_id : Nat) (now : String) (ticket : Ticket)
    (ca : TicketAssignment) (u : User)
    (hfind : db.tickets.find? (fun t => t.id == ticket_id) = some ticket)
    (hstat : ESCALATABLE_STATUSES.contains ticket.status = true)
    (hca : db.assignments.find? (fun a =>
      a.ticket_id == ticket_id && a.is_current) = some ca)
    (hu : db.users.find? (fun v => v.id == ca.assigned_to_user_id) = some u)
    (hmgr : u.manager_id = none) :
    (handle_sla_expiry db rs ticket_id now).1 = .finalEscalation ∧
    (handle_sla_expiry db rs ticket_id now).2.2 = rs ∧
    (handle_sla_expiry db rs ticket_id now).2.1.tickets = db.tickets ∧
    (handle_sla_expiry db rs ticket_id now).2.1.assignments = db.assignments ∧
    (handle_sla_expiry db rs ticket_id now).2.1.escalations = db.escalations ∧
    (∀ v ∈ db.users, v.tenant_id = some ticket.tenant_id →
      (v.role = UserRole.admin ∨ v.role = UserRole.manager) →
      v.is_active = true →
      ∃ n ∈ (handle_sla_expiry db rs ticket_id now).2.1.notifications,
        n.user_id = v.id ∧ n.title = "Escalation Limit Reached" ∧
        n.notification_type = "system" ∧ n.ticket_id = some ticket.id ∧
        n.related_user_id = some u.id) := by
  have hrun : handle_sla_expiry db rs ticket_id now =
      (.finalEscalation, notify_no_manager_escalation db ticket u, rs) := by
    simp [handle_sla_expiry, hfind, hstat, hca, hu, hmgr]
    simpa using hstat
  rw [hrun]
  refine ⟨rfl, rfl, rfl, rfl, rfl, ?_⟩
  intro v hv htenant hrole hactive
  have hvfilter : v ∈ db.users.filter (fun w =>
      w.tenant_id == some ticket.tenant_id &&
      (w.role == UserRole.admin || w.role == UserRole.manager) &&
      w.is_active) := by
    refine List.mem_filter.mpr ⟨hv, ?_⟩
    rcases hrole with h | h <;> simp [htenant, hactive, h]
  exact ⟨_, List.mem_append_right _ (List.mem_map_of_mem _ hvfilter),
    rfl, rfl, rfl, rfl, rfl⟩

/-- Witness for C7 on the scenario-4 fixture: the run ends in the
finalEscalation outcome, the ledger is untouched, and the active admin
receives the notification. -/
theorem final_escalation_no_mutation_witness :
    (dbNoMgr.tickets.find? (fun t => t.id == 30) = some ticket30) ∧
    (ESCALATABLE_STATUSES.contains ticket30.status = true) ∧
    (dbNoMgr.assignments.find? (fun a =>
      a.ticket_id == 30 && a.is_current) = some assignG) ∧
    (dbNoMgr.users.find? (fun v =>
      v.id == assignG.assigned_to_user_id) = some agentG) ∧
    agentG.manager_id = none ∧
    (handle_sla_expiry dbNoMgr [] 30 "t5").1 = .finalEscalation ∧
    (handle_sla_expiry dbNoMgr [] 30 "t5").2.1.assignments =
      dbNoMgr.assignments ∧
    (∃ n ∈ (handle_sla_expiry dbNoMgr [] 30 "t5").2.1.notifications,
      n.user_id = adminH.id ∧ n.title = "Escalation Limit Reached" ∧
      n.notification_type = "system" ∧ n.ticket_id = some ticket30.id ∧
      n.related_user_id = some agentG.id) := by
  have T := final_escalation_no_mutation dbNoMgr [] 30 "t5" ticket30 assignG
    agentG (by decide) (by decide) (by decide) (by decide) rfl
  exact ⟨by decide, by decide, by decide, by decide, rfl, T.1, T.2.2.2.1,
    T.2.2.2.2.2 adminH (by decide) rfl (Or.inl rfl) rfl⟩

/-- Claim C9 counterexample: with an existing (ineligible) manager record
the claimed ownership transfer does not happen — the run ends in the
caught AttributeError with the state rolled back, and the current ledger
row still belongs to the original assignee. -/
theorem escalation_no_transfer_counterexample :
    handle_sla_expiry dbIneligibleMgr [] 40 "t6" =
      (.attrError, dbIneligibleMgr, []) ∧
    (dbIneligibleMgr.assignments.filter (fun a => a.is_current)).map
      (fun a => a.assigned_to_user_id) = [5] := by
  decide

/-- Claim C9 amended: the escalation engine screens the escalation target
only for existence — for any manager record whatever its role, activity,
accepting flag or capacity, the run passes the existence check (it does
not take the dangling-reference abort) and then ends in the caught
AttributeError with all state unchanged, so no ownership transfer
occurs. -/
theorem escalation_manager_existence_only (db : DBState) (rs : RedisState)
    (ticket_id : Nat) (now : String) (ticket : Ticket)
    (ca : TicketAssignment) (u : User) (mid : Nat) (manager : User)
    (hfind : db.tickets.find? (fun t => t.id == ticket_id) = some ticket)
    (hstat : ESCALATABLE_STATUSES.contains ticket.status = true)
    (hca : db.assignments.find? (fun a =>
      a.ticket_id == ticket_id && a.is_current) = some ca)
    (hu : db.users.find? (fun v => v.id == ca.assigned_to_user_id) = some u)
    (hmid : u.manager_id = some mid)
    (hmgr : db.users.find? (fun v => v.id == mid) = some manager) :
    handle_sla_expiry db rs ticket_id now = (.attrError, db, rs) := by
  simp [handle_sla_expiry, hfind, hstat, hca, hu, hmid, hmgr,
    attr_auto_escalated_none]
  simpa using hstat

/-- Witness for the amended C9 on the ineligible-manager fixture. -/
theorem escalation_manager_existence_only_witness :
    (dbIneligibleMgr.tickets.find? (fun t => t.id == 40) = some ticket40) ∧
    (ESCALATABLE_STATUSES.contains ticket40.status = true) ∧
    (dbIneligibleMgr.assignments.find? (fun a =>
      a.ticket_id == 40 && a.is_current) = some assignK) ∧
    (dbIneligibleMgr.users.find? (fun v =>
      v.id == assignK.assigned_to_user_id) = some agentK) ∧
    agentK.manager_id = some 6 ∧
    (dbIneligibleMgr.users.find? (fun v => v.id == 6) = some userL) ∧
    handle_sla_expiry dbIneligibleMgr [] 40 "t7" =
      (.attrError, dbIneligibleMgr, []) :=
  ⟨by decide, by decide, by decide, by decide, rfl, by decide,
    escalation_manager_existence_only dbIneligibleMgr [] 40 "t7" ticket40
      assignK agentK 6 userL (by decide) (by decide) (by decide) (by decide)
      rfl (by decide)⟩

end Shakwa
